import Mathlib

/-!
Verification of the sqlite utilities of the `reader` repository
(`src/reader/_sqlite_utils.py` and `src/reader/_utils.py`), as a shallow
embedding: the database is an explicit state record, sqlite exceptions are
values, and the context managers become functions on connection states.
-/

namespace ReaderVerify

/-- Abstract state of a sqlite database file, covering exactly the parts of it
that `_sqlite_utils.py` reads or writes: the `user_version` and
`application_id` pragmas, the number of rows of `sqlite_master`
(read by `table_count`), the number of rows `PRAGMA foreign_key_check`
returns (read by `foreign_key_check`), and an opaque remainder `data`
standing for the actual tables. -/
structure DBState where
  userVersion : Nat
  applicationId : Nat
  tableCount : Nat
  fkViolations : Nat
  data : Nat
deriving DecidableEq

/-- The `DBError` hierarchy of `_sqlite_utils.py`, with the message each
exception was constructed with. -/
inductive DBErr where
  | dbError (msg : String)
  | schemaVersionError (msg : String)
  | integrityError (msg : String)
  | idError (msg : String)
deriving DecidableEq

/-- Python `DBError.display_name`, as overridden in each subclass. -/
def DBErr.displayName : DBErr → String
  | .dbError _ => "database error"
  | .schemaVersionError _ => "schema version error"
  | .integrityError _ => "integrity error"
  | .idError _ => "application id error"

/-- The message the exception was constructed with (`super().__str__()`). -/
def DBErr.msg : DBErr → String
  | .dbError m => m
  | .schemaVersionError m => m
  | .integrityError m => m
  | .idError m => m

/-- Python `DBError.__str__`: `"{display_name}: {message}"`. -/
def DBErr.str (e : DBErr) : String :=
  e.displayName ++ ": " ++ e.msg

/-- Python `f"0x{id:x}"` hex rendering used in the `IdError` messages. -/
def hexStr (n : Nat) : String :=
  String.mk (Nat.toDigits 16 n)

/-- Python `foreign_key_check(db)`: raises `IntegrityError("FOREIGN KEY constraint
failed")` iff `PRAGMA foreign_key_check` returned any rows. -/
def foreign_key_check (db : DBState) : Except DBErr Unit :=
  if db.fkViolations ≠ 0 then
    Except.error (DBErr.integrityError "FOREIGN KEY constraint failed")
  else Except.ok ()

/-- Python `table_count(db)`: `select count(*) from sqlite_master`. -/
def table_count (db : DBState) : Nat :=
  db.tableCount

/-- Python `HeavyMigration`: `create` builds the latest schema, `version` is the
target version, `migrations` maps a version to the migration starting at it,
`id` is the expected `application_id` (0 disables the id checks). -/
structure HeavyMigration where
  create : DBState → DBState
  version : Nat
  migrations : Nat → Option (DBState → DBState)
  id : Nat := 0

/-- Python `HeavyMigration.get_version(db)`: reads `PRAGMA user_version`. -/
def HeavyMigration.get_version (db : DBState) : Nat :=
  db.userVersion

/-- Python `HeavyMigration.set_version(db, version)`: `PRAGMA user_version = v`. -/
def HeavyMigration.set_version (db : DBState) (version : Nat) : DBState :=
  { db with userVersion := version }

/-- Python `HeavyMigration.get_id(db)`: reads `PRAGMA application_id`. -/
def HeavyMigration.get_id (db : DBState) : Nat :=
  db.applicationId

/-- Python `HeavyMigration.set_id(db, id)`: `PRAGMA application_id = id`. -/
def HeavyMigration.set_id (db : DBState) (id : Nat) : DBState :=
  { db with applicationId := id }

/-- The `for from_version in range(version, self.version)` loop of
`HeavyMigration.migrate`, over the explicit list of versions to step from.
Each iteration looks up `migrations[from_version]`, raising
`SchemaVersionError` when absent; otherwise it sets `user_version` to
`from_version + 1`, runs the migration, and runs `foreign_key_check`,
rewrapping an `IntegrityError` with the
`f"after migrating to version {to_version}: {e}"` prefix (`from None`). -/
def migrateLoop (m : HeavyMigration) (origVersion : Nat) :
    List Nat → DBState → Except DBErr Unit × DBState
  | [], db => (Except.ok (), db)
  | fromVersion :: rest, db =>
    match m.migrations fromVersion with
    | none =>
      (Except.error (DBErr.schemaVersionError
        ("no migration from " ++ toString fromVersion ++ " to "
          ++ toString (fromVersion + 1)
          ++ "; expected migrations for all versions later than "
          ++ toString origVersion)), db)
    | some migration =>
      let db1 := HeavyMigration.set_version db (fromVersion + 1)
      let db2 := migration db1
      match foreign_key_check db2 with
      | Except.error e =>
        (Except.error (DBErr.integrityError
          ("after migrating to version " ++ toString (fromVersion + 1)
            ++ ": " ++ DBErr.str e)), db2)
      | Except.ok _ => migrateLoop m origVersion rest db2

/-- The body of `HeavyMigration.migrate` (everything inside the
`with foreign_keys_off(db), ddl_transaction(db):` block), returning the raised
exception (if any) together with the database state reached, so that the
transaction wrapper can roll it back. -/
def HeavyMigration.migrateBody (m : HeavyMigration) (db0 : DBState) :
    Except DBErr Unit × DBState :=
  if m.id ≠ 0 ∧ HeavyMigration.get_id db0 ≠ 0 ∧ HeavyMigration.get_id db0 ≠ m.id then
    (Except.error (DBErr.idError ("invalid id: 0x" ++ hexStr (HeavyMigration.get_id db0))), db0)
  else if HeavyMigration.get_version db0 = 0 then
    if table_count db0 ≠ 0 then
      (Except.error (DBErr.dbError "database with no version already has tables"), db0)
    else
      (Except.ok (),
        HeavyMigration.set_id (HeavyMigration.set_version (m.create db0) m.version) m.id)
  else if HeavyMigration.get_version db0 = m.version then
    if m.id ≠ 0 ∧ HeavyMigration.get_id db0 = 0 then
      (Except.error (DBErr.idError "database with version has missing id"), db0)
    else (Except.ok (), db0)
  else if m.version < HeavyMigration.get_version db0 then
    (Except.error (DBErr.schemaVersionError
      ("invalid version: " ++ toString (HeavyMigration.get_version db0))), db0)
  else
    match migrateLoop m (HeavyMigration.get_version db0)
        (List.range' (HeavyMigration.get_version db0)
          (m.version - HeavyMigration.get_version db0)) db0 with
    | (Except.error e, db) => (Except.error e, db)
    | (Except.ok _, db) =>
      if m.id ≠ 0 ∧ HeavyMigration.get_id db ≠ m.id then
        (Except.error (DBErr.idError
          ("missing or invalid id after migration: 0x" ++ hexStr (HeavyMigration.get_id db))), db)
      else (Except.ok (), db)

/-- A sqlite3 connection, covering the parts `_sqlite_utils.py` touches:
the database state it sees, the transaction snapshot (`some s` while a
transaction opened by `BEGIN;` is active, holding the state a `ROLLBACK;`
would restore; `none` in autocommit mode, so `in_transaction` is
`snapshot.isSome`), the `isolation_level` attribute, and the per-connection
`foreign_keys` pragma. -/
structure Conn where
  db : DBState
  snapshot : Option DBState
  isolationLevel : Option String
  foreignKeys : Bool
deriving DecidableEq

/-- Python `db.execute("BEGIN;")`: opens a transaction whose rollback point is the
current state. -/
def execBegin (c : Conn) : Conn :=
  { c with snapshot := some c.db }

/-- Python `db.execute("COMMIT;")`: keeps the current state, ends the transaction. -/
def execCommit (c : Conn) : Conn :=
  { c with snapshot := none }

/-- Python `db.execute("ROLLBACK;")`: restores the state saved at `BEGIN;`, ends the
transaction. -/
def execRollback (c : Conn) : Conn :=
  { c with db := c.snapshot.getD c.db, snapshot := none }

/-- Python `ddl_transaction(db)` applied to a body: saves `isolation_level`, sets it
to `None`, executes `BEGIN;`, runs the body, executes `COMMIT;` on normal
completion or `ROLLBACK;` (re-raising) on an exception, and restores
`isolation_level` in the `finally` on both paths. The body returns the
exception it raised (if any) together with the connection it left behind. -/
def ddl_transaction {E : Type} (body : Conn → Except E Unit × Conn) (c : Conn) :
    Except E Unit × Conn :=
  let il := c.isolationLevel
  let c1 := execBegin { c with isolationLevel := none }
  match body c1 with
  | (Except.ok _, c2) => (Except.ok (), { execCommit c2 with isolationLevel := il })
  | (Except.error e, c2) => (Except.error e, { execRollback c2 with isolationLevel := il })

/-- Python `foreign_keys_off(db)` applied to a body: asserts the connection is not
inside a transaction (`none` models the `AssertionError`), reads the current
value of `PRAGMA foreign_keys`, sets it `OFF`, runs the body, and in the
`finally` sets the pragma back to the value read (`'ON' if foreign_keys else
'OFF'`), whether the body completed or raised. -/
def foreign_keys_off {E : Type} (body : Conn → Except E Unit × Conn) (c : Conn) :
    Option (Except E Unit × Conn) :=
  if c.snapshot.isSome then none
  else
    let foreignKeys := c.foreignKeys
    let c1 := { c with foreignKeys := false }
    match body c1 with
    | (r, c2) => some (r, { c2 with foreignKeys := foreignKeys })

/-- Lift a database-state transformer to a connection transformer (the body
only runs SQL against the database; it does not touch the transaction
machinery itself). -/
def liftBody {E : Type} (f : DBState → Except E Unit × DBState) :
    Conn → Except E Unit × Conn :=
  fun c =>
    match f c.db with
    | (r, db) => (r, { c with db := db })

/-- Python `HeavyMigration.migrate(db)`: the whole method, i.e. the body run inside
`with foreign_keys_off(db), ddl_transaction(db):`. `none` models the
assertion failure of `foreign_keys_off` when already inside a transaction. -/
def HeavyMigration.migrate (m : HeavyMigration) (c : Conn) :
    Option (Except DBErr Unit × Conn) :=
  foreign_keys_off (ddl_transaction (liftBody m.migrateBody)) c

/-- The id precheck at the top of `migrate` passes: either no application id
is configured, or the stored one is zero or matches. -/
def idPrecheckOk (m : HeavyMigration) (db : DBState) : Prop :=
  m.id = 0 ∨ db.applicationId = 0 ∨ db.applicationId = m.id

instance (m : HeavyMigration) (db : DBState) : Decidable (idPrecheckOk m db) := by
  unfold idPrecheckOk; infer_instance

/-! ## `wrap_exceptions` -/

/-- The sqlite3 exception taxonomy as seen by `wrap_exceptions`:
`OperationalError` and `ProgrammingError` (both subclasses of
`DatabaseError`), an instance of exactly `DatabaseError`, any other proper
subclass of `DatabaseError` (e.g. `IntegrityError`), and exceptions that are
not `DatabaseError`s at all; each with its `str()`. -/
inductive SqliteExc where
  | operationalError (msg : String)
  | programmingError (msg : String)
  | databaseError (msg : String)
  | databaseErrorSub (msg : String)
  | otherError (msg : String)
deriving DecidableEq

/-- What comes out of a `with wrap_exceptions(exc_type, message):` block that
raised: either nothing was raised, or `exc_type(msg)` was raised with the
given `__cause__` (`none` when raised `from None`), or the original exception
propagated unchanged. -/
inductive WrapOutcome where
  | ok
  | wrapped (msg : String) (cause : Option SqliteExc)
  | reraised (e : SqliteExc)
deriving DecidableEq

/-- ASCII lowering of a character (`str.lower()`; the sqlite3 messages
involved are ASCII). -/
def lowerChar (c : Char) : Char :=
  if 'A' ≤ c ∧ c ≤ 'Z' then Char.ofNat (c.toNat + 32) else c

/-- Python `str.lower()`. -/
def lowerStr (s : String) : String :=
  String.mk (s.data.map lowerChar)

/-- Substring test on character lists (`pat in hay` on Python strings). -/
def listContains (hay pat : List Char) : Bool :=
  match hay with
  | [] => pat.isPrefixOf ([] : List Char)
  | _ :: rest => pat.isPrefixOf hay || listContains rest pat

/-- Python `pat in hay` for strings. -/
def strContains (hay pat : String) : Bool :=
  listContains hay.data pat.data

/-- Python `wrap_exceptions(exc_type, message)` around a body that raised `raised`
(or completed, `none`): `OperationalError` is wrapped as
`exc_type(message) from e`; a `ProgrammingError` whose lowered text contains
"cannot operate on a closed database" becomes
`exc_type("operation on closed database") from None` and any other
`ProgrammingError` is re-raised; an instance of exactly `DatabaseError` whose
lowered text contains "file is not a database" is wrapped as
`exc_type(message) from e` and every other `DatabaseError` is re-raised;
anything else propagates. -/
def wrap_exceptions (message : String) (raised : Option SqliteExc) : WrapOutcome :=
  match raised with
  | none => WrapOutcome.ok
  | some e =>
    match e with
    | SqliteExc.operationalError _ => WrapOutcome.wrapped message (some e)
    | SqliteExc.programmingError s =>
      if strContains (lowerStr s) "cannot operate on a closed database" then
        WrapOutcome.wrapped "operation on closed database" none
      else WrapOutcome.reraised e
    | SqliteExc.databaseError s =>
      if strContains (lowerStr s) "file is not a database" then
        WrapOutcome.wrapped message (some e)
      else WrapOutcome.reraised e
    | SqliteExc.databaseErrorSub _ => WrapOutcome.reraised e
    | SqliteExc.otherError _ => WrapOutcome.reraised e

/-! ## `LocalConnectionFactory` -/

/-- Python `LocalConnectionFactory._is_private(path)`:
`path in [':memory:', '']`. -/
def LocalConnectionFactory.is_private (path : String) : Bool :=
  path = ":memory:" || path = ""

/-- State of a `LocalConnectionFactory`. Threads are numbered; connections
are numbered in creation order, connection `0` being `self._main` (created by
`__init__` on the creating thread via `self.__enter__()`). `locals t` is the
per-thread `ContextVar` slot: `none` where the var was never set. -/
structure FactoryState where
  path : String
  creator : Nat
  locals : Nat → Option Nat
  nextConn : Nat

/-- The factory state right after `__init__` on thread `creator`:
`__enter__` connected and stored connection `0` in the creating thread's
slot, and `self._main` is that connection. -/
def FactoryState.init (path : String) (creator : Nat) : FactoryState :=
  { path := path
    creator := creator
    locals := fun t => if t = creator then some 0 else none
    nextConn := 1 }

/-- Events that change the factory state: a thread entering the context
manager (`__enter__`), a thread leaving it (`__exit__`, whose `_close()`
closes the connection but does not unset the `ContextVar`), and a thread
calling `close()` (likewise leaves the slots unchanged). -/
inductive FStep where
  | enter (t : Nat)
  | exitScope (t : Nat)
  | closeCall (t : Nat)
deriving DecidableEq

/-- One step of factory-state evolution. `__enter__` returns the existing
connection if the slot is set, and otherwise connects and stores a fresh
connection; neither `__exit__` nor `close()` modifies the slots. -/
def FactoryState.step (s : FactoryState) : FStep → FactoryState
  | FStep.enter t =>
    match s.locals t with
    | some _ => s
    | none =>
      { s with
        locals := fun u => if u = t then some s.nextConn else s.locals u
        nextConn := s.nextConn + 1 }
  | FStep.exitScope _ => s
  | FStep.closeCall _ => s

/-- The factory state after a sequence of events following construction. -/
def FactoryState.run (path : String) (creator : Nat) (steps : List FStep) :
    FactoryState :=
  steps.foldl FactoryState.step (FactoryState.init path creator)

/-- Python `LocalConnectionFactory.get()` called from thread `t`: error if the
thread's slot is unset; error if the database is private and the thread's
connection is not `self._main`; otherwise the thread's connection. -/
def LocalConnectionFactory.get (s : FactoryState) (t : Nat) : Except String Nat :=
  match s.locals t with
  | none =>
    Except.error
      "must be used as a context manager when using from threads other than the creating thread"
  | some db =>
    if LocalConnectionFactory.is_private s.path ∧ db ≠ 0 then
      Except.error
        "cannot use a private database from threads other than the creating thread"
    else Except.ok db

/-- Python `LocalConnectionFactory.close()` called from thread `t`: error unless the
thread's slot holds `self._main`. -/
def LocalConnectionFactory.close (s : FactoryState) (t : Nat) : Except String Unit :=
  if s.locals t ≠ some 0 then
    Except.error
      "cannot close() from threads other than the creating thread, use as a context manager"
  else Except.ok ()

/-! ## `rowcount_exactly_one` and the flag operations -/

/-- Outcome of `rowcount_exactly_one(cursor, make_exc)`: returned normally,
raised `make_exc()`, or failed the `assert`. -/
inductive RowcountOutcome where
  | ok
  | raisedMakeExc
  | assertFailed (msg : String)
deriving DecidableEq

/-- Python `rowcount_exactly_one(cursor, make_exc)`: raises `make_exc()` when
`cursor.rowcount == 0`, then asserts `cursor.rowcount == 1`
("shouldn't have more than 1 row"). `sqlite3` rowcounts are integers
(`-1` for statements that are not DML). -/
def rowcount_exactly_one (rowcount : Int) : RowcountOutcome :=
  if rowcount = 0 then RowcountOutcome.raisedMakeExc
  else if rowcount = 1 then RowcountOutcome.ok
  else RowcountOutcome.assertFailed "shouldn't have more than 1 row"

/-- One boolean flag column of the `entries` table, keyed by
`(feed_url, entry_id)`. -/
abbrev FlagTable : Type := List ((String × String) × Bool)

/-- The `UPDATE entries SET flag = ? WHERE feed = ? AND id = ?` effect:
set the flag on every row whose key matches. -/
def updateFlag (key : String × String) (flag : Bool) (rows : FlagTable) : FlagTable :=
  rows.map (fun r => if r.1 = key then (r.1, flag) else r)

/-- Python `cursor.rowcount` of that UPDATE: the number of matching rows. -/
def updateRowcount (key : String × String) (rows : FlagTable) : Nat :=
  (rows.filter (fun r => decide (r.1 = key))).length

/-- Result of a flag operation: the new table, `EntryNotFoundError`, or an
assertion failure from `rowcount_exactly_one`. -/
inductive MarkResult where
  | ok (rows : FlagTable)
  | entryNotFoundError
  | assertFailed (msg : String)
deriving DecidableEq

/-- Modelled from the spec: `mark_as_read_unread(feed_url, entry_id, flag)`
of the storage engine (whose module is not in the sources provided) runs a
single UPDATE of the entry's flag keyed by `(feed_url, entry_id)` and then
calls `rowcount_exactly_one(cursor, lambda: EntryNotFoundError(...))`
(which is in the sources) on its rowcount. -/
def mark_as_read_unread (rows : FlagTable) (feedUrl entryId : String) (flag : Bool) :
    MarkResult :=
  let rows2 := updateFlag (feedUrl, entryId) flag rows
  match rowcount_exactly_one (Int.ofNat (updateRowcount (feedUrl, entryId) rows)) with
  | RowcountOutcome.ok => MarkResult.ok rows2
  | RowcountOutcome.raisedMakeExc => MarkResult.entryNotFoundError
  | RowcountOutcome.assertFailed m => MarkResult.assertFailed m

/-- Modelled from the spec: `mark_as_important_unimportant` is the same
operation on the `important` column. -/
def mark_as_important_unimportant (rows : FlagTable) (feedUrl entryId : String)
    (flag : Bool) : MarkResult :=
  mark_as_read_unread rows feedUrl entryId flag

/-! ## `join_paginated_iter` and `chunks` -/

/-- Python `join_paginated_iter(get_things, chunk_size)` from `_utils.py`, with the
`while True` loop given explicit fuel (`none` = fuel exhausted before the
loop broke). Each round calls `get_things(chunk_size, last)`; if
`chunk_size` is falsy everything is yielded and the loop breaks; otherwise an
empty page breaks, the cursor of the last item becomes `last`, the page's
items are yielded, and a short page breaks. -/
def join_paginated_iter {α κ : Type} (get_things : Nat → Option κ → List (α × κ))
    (chunk_size : Nat) : Nat → Option κ → Option (List α)
  | 0, _ => none
  | fuel + 1, last =>
    let things := get_things chunk_size last
    if chunk_size = 0 then some (things.map Prod.fst)
    else
      match things with
      | [] => some []
      | t :: ts =>
        let last2 := ((t :: ts).getLast (List.cons_ne_nil t ts)).2
        if (t :: ts).length < chunk_size then some ((t :: ts).map Prod.fst)
        else
          match join_paginated_iter get_things chunk_size fuel (some last2) with
          | none => none
          | some rest => some ((t :: ts).map Prod.fst ++ rest)

/-- Python `chunks(n, iterable)` from `_utils.py`: group into lists of `n`, with a
possibly shorter final group (assuming the yielded chains are consumed in
order). With `n = 0`, `islice(it, 0)` is empty, so the first `next` raises
`StopIteration` and nothing is yielded. -/
def chunks {α : Type} : Nat → List α → List (List α)
  | _, [] => []
  | 0, _ :: _ => []
  | n + 1, x :: xs => (x :: xs.take n) :: chunks (n + 1) (xs.drop n)
termination_by _n xs => xs.length
decreasing_by simp [List.length_drop]; omega

/-! ## Concrete instances used by witnesses -/

/-- A concrete database state. -/
def exDB (v appId tables fk : Nat) : DBState :=
  { userVersion := v, applicationId := appId, tableCount := tables
    fkViolations := fk, data := 0 }

/-- A concrete idle connection (no open transaction). -/
def exConn (db : DBState) : Conn :=
  { db := db, snapshot := none, isolationLevel := some "", foreignKeys := true }

/-- A concrete migration step that only touches the opaque data. -/
def exMigStep : DBState → DBState :=
  fun db => { db with data := db.data + 1 }

/-- Target version 3, migrations from 1 and 2 present. -/
def exMig3 : HeavyMigration :=
  { create := id, version := 3
    migrations := fun v => if v = 1 ∨ v = 2 then some exMigStep else none, id := 0 }

/-- Target version 1, no migrations. -/
def exMig1 : HeavyMigration :=
  { create := id, version := 1, migrations := fun _ => none, id := 0 }

/-- Target version 4 with a `create` that makes 9 tables and application id 3. -/
def exMigCreate : HeavyMigration :=
  { create := fun db => { db with tableCount := 9 }, version := 4
    migrations := fun _ => none, id := 3 }

/-- A concrete connection whose `foreign_keys` pragma is OFF. -/
def exConnOff (db : DBState) : Conn :=
  { db := db, snapshot := none, isolationLevel := some "", foreignKeys := false }

/-- A concrete context-manager body that writes some data and completes. -/
def bodyEx : Conn → Except Unit Unit × Conn :=
  fun c => (Except.ok (), { c with db := { c.db with data := 42 } })

/-- A concrete page function: a full page of two from the start, then a
short page of one after cursor 1. -/
def exGet : Nat → Option Nat → List (Nat × Nat)
  | _, none => [(10, 0), (11, 1)]
  | _, some 1 => [(12, 2)]
  | _, some _ => []

/-! ## Theorems -/

/-- Running `migrate` on a connection in autocommit mode: the body runs inside the
two wrappers; on success the body's database state is committed, on an
exception the initial state is restored, and in both cases the connection's
`isolation_level` and `foreign_keys` settings come back unchanged. -/
theorem migrate_eq (m : HeavyMigration) (c : Conn) (h : c.snapshot = none) :
    m.migrate c =
      some (match m.migrateBody c.db with
        | (Except.ok _, db2) => (Except.ok (), { c with db := db2 })
        | (Except.error e, _) => (Except.error e, c)) := by
  obtain ⟨db, snap, il, fk⟩ := c
  simp only at h
  subst h
  unfold HeavyMigration.migrate foreign_keys_off ddl_transaction liftBody execBegin
    execCommit execRollback
  cases hb : m.migrateBody db with
  | mk r db2 => cases r <;> simp [hb]

/-- C2: on a database whose stored `user_version` is strictly greater than
the configured target version (and whose application id passes the
precheck), `migrate` raises `SchemaVersionError("invalid version: <stored>")`
and leaves the connection unchanged. -/
theorem migrate_invalid_version (m : HeavyMigration) (c : Conn)
    (hsnap : c.snapshot = none) (hid : idPrecheckOk m c.db)
    (hgt : m.version < c.db.userVersion) :
    m.migrate c = some (Except.error (DBErr.schemaVersionError
      ("invalid version: " ++ toString c.db.userVersion)), c) := by
  rw [migrate_eq m c hsnap]
  have h1 : ¬(m.id ≠ 0 ∧ HeavyMigration.get_id c.db ≠ 0
      ∧ HeavyMigration.get_id c.db ≠ m.id) := by
    rcases hid with h | h | h <;> simp [HeavyMigration.get_id, h]
  have h2 : c.db.userVersion ≠ 0 := by omega
  have h3 : c.db.userVersion ≠ m.version := by omega
  simp [HeavyMigration.migrateBody, h1, h2, h3, HeavyMigration.get_version, hgt]

/-- Witness for C2 at a concrete input: target 1, stored version 2. -/
theorem migrate_invalid_version_witness :
    exMig1.migrate (exConn (exDB 2 0 5 0)) =
      some (Except.error (DBErr.schemaVersionError "invalid version: 2"),
        exConn (exDB 2 0 5 0)) :=
  migrate_invalid_version exMig1 (exConn (exDB 2 0 5 0)) rfl (Or.inl rfl) (by decide)

/-- C3: on a database with stored `user_version` 0 (and a passing id
precheck): if `sqlite_master` is non-empty `migrate` raises
`DBError("database with no version already has tables")`; otherwise it runs
`create`, sets `user_version` to the target and `application_id` to the
configured id and commits; either way the per-step `migrations` are never
consulted. -/
theorem migrate_version_zero (m : HeavyMigration) (c : Conn)
    (hsnap : c.snapshot = none) (hid : idPrecheckOk m c.db)
    (h0 : c.db.userVersion = 0) :
    (c.db.tableCount ≠ 0 →
      m.migrate c = some (Except.error
        (DBErr.dbError "database with no version already has tables"), c))
    ∧ (c.db.tableCount = 0 →
      m.migrate c = some (Except.ok (),
        { c with db :=
          { m.create c.db with userVersion := m.version, applicationId := m.id } }))
    ∧ (∀ migs, HeavyMigration.migrate
        { create := m.create, version := m.version, migrations := migs, id := m.id } c
        = m.migrate c) := by
  have hQ : ¬(m.id ≠ 0 ∧ HeavyMigration.get_id c.db ≠ 0
      ∧ HeavyMigration.get_id c.db ≠ m.id) := by
    rcases hid with h | h | h <;> simp [HeavyMigration.get_id, h]
  have key : ∀ migs : Nat → Option (DBState → DBState),
      HeavyMigration.migrateBody
          { create := m.create, version := m.version, migrations := migs, id := m.id } c.db =
        (if table_count c.db ≠ 0 then
          (Except.error (DBErr.dbError "database with no version already has tables"), c.db)
        else
          (Except.ok (),
            { m.create c.db with userVersion := m.version, applicationId := m.id })) := by
    intro migs
    simp only [HeavyMigration.migrateBody]
    rw [if_neg hQ, if_pos (show HeavyMigration.get_version c.db = 0 from h0)]
    simp only [HeavyMigration.set_id, HeavyMigration.set_version]
  have keym : m.migrateBody c.db =
      (if table_count c.db ≠ 0 then
        (Except.error (DBErr.dbError "database with no version already has tables"), c.db)
      else
        (Except.ok (),
          { m.create c.db with userVersion := m.version, applicationId := m.id })) :=
    key m.migrations
  refine ⟨?_, ?_, ?_⟩
  · intro ht
    rw [migrate_eq m c hsnap, keym, if_pos (show table_count c.db ≠ 0 from ht)]
  · intro ht
    rw [migrate_eq m c hsnap, keym,
      if_neg (show ¬table_count c.db ≠ 0 from by simpa [table_count] using ht)]
  · intro migs
    rw [migrate_eq _ c hsnap, migrate_eq m c hsnap, keym, key migs]

/-- Witness for C3: empty database, `create` makes 9 tables, target version
4, application id 3. -/
theorem migrate_version_zero_witness :
    exMigCreate.migrate (exConn (exDB 0 0 0 0)) =
      some (Except.ok (),
        { exConn (exDB 0 0 0 0) with db :=
          { exDB 0 0 0 0 with userVersion := 4, applicationId := 3, tableCount := 9 } }) :=
  (migrate_version_zero exMigCreate (exConn (exDB 0 0 0 0)) rfl
    (Or.inr (Or.inl rfl)) rfl).2.1 rfl

/-- C1: on a database with `0 < user_version < target` (and a passing id
precheck), `migrate` runs the step loop over versions
`user_version, …, target - 1` and afterwards re-checks the application id;
a step whose migration is absent raises `SchemaVersionError`; a present step
first sets `user_version` to `v + 1`, then runs the migration, then runs
`foreign_key_check`, raising, on a violation, an `IntegrityError` whose
message is `"after migrating to version {v+1}: "` followed by the stringified
inner error — in particular it begins with that prefix. -/
theorem migrate_steps (m : HeavyMigration) (c : Conn)
    (hsnap : c.snapshot = none) (hid : idPrecheckOk m c.db)
    (h0 : 0 < c.db.userVersion) (hlt : c.db.userVersion < m.version) :
    (m.migrate c = some (
      match migrateLoop m c.db.userVersion
          (List.range' c.db.userVersion (m.version - c.db.userVersion)) c.db with
      | (Except.error e, _) => (Except.error e, c)
      | (Except.ok _, db2) =>
        if m.id ≠ 0 ∧ db2.applicationId ≠ m.id then
          (Except.error (DBErr.idError ("missing or invalid id after migration: 0x"
            ++ hexStr db2.applicationId)), c)
        else (Except.ok (), { c with db := db2 })))
    ∧ (∀ fv rest db, m.migrations fv = none →
        migrateLoop m c.db.userVersion (fv :: rest) db =
          (Except.error (DBErr.schemaVersionError
            ("no migration from " ++ toString fv ++ " to " ++ toString (fv + 1)
              ++ "; expected migrations for all versions later than "
              ++ toString c.db.userVersion)), db))
    ∧ (∀ fv rest db mig, m.migrations fv = some mig →
        migrateLoop m c.db.userVersion (fv :: rest) db =
          (if (mig { db with userVersion := fv + 1 }).fkViolations ≠ 0 then
            (Except.error (DBErr.integrityError
              ("after migrating to version " ++ toString (fv + 1) ++ ": "
                ++ "integrity error: FOREIGN KEY constraint failed")),
              mig { db with userVersion := fv + 1 })
          else migrateLoop m c.db.userVersion rest (mig { db with userVersion := fv + 1 })))
    ∧ (∀ fv : Nat, ∃ rest,
        "after migrating to version " ++ toString (fv + 1) ++ ": "
            ++ "integrity error: FOREIGN KEY constraint failed"
          = ("after migrating to version " ++ toString (fv + 1) ++ ": ") ++ rest) := by
  have hQ : ¬(m.id ≠ 0 ∧ HeavyMigration.get_id c.db ≠ 0
      ∧ HeavyMigration.get_id c.db ≠ m.id) := by
    rcases hid with h | h | h <;> simp [HeavyMigration.get_id, h]
  have h2 : ¬(HeavyMigration.get_version c.db = 0) := by
    simp only [HeavyMigration.get_version]; omega
  have h3 : ¬(HeavyMigration.get_version c.db = m.version) := by
    simp only [HeavyMigration.get_version]; omega
  have h4 : ¬(m.version < HeavyMigration.get_version c.db) := by
    simp only [HeavyMigration.get_version]; omega
  refine ⟨?_, ?_, ?_, ?_⟩
  · rw [migrate_eq m c hsnap]
    have hb : m.migrateBody c.db =
        (match migrateLoop m (HeavyMigration.get_version c.db)
            (List.range' (HeavyMigration.get_version c.db)
              (m.version - HeavyMigration.get_version c.db)) c.db with
        | (Except.error e, db) => (Except.error e, db)
        | (Except.ok _, db) =>
          if m.id ≠ 0 ∧ HeavyMigration.get_id db ≠ m.id then
            (Except.error (DBErr.idError ("missing or invalid id after migration: 0x"
              ++ hexStr (HeavyMigration.get_id db))), db)
          else (Except.ok (), db)) := by
      unfold HeavyMigration.migrateBody
      rw [if_neg hQ, if_neg h2, if_neg h3, if_neg h4]
    rw [hb]
    cases hl : migrateLoop m c.db.userVersion
        (List.range' c.db.userVersion (m.version - c.db.userVersion)) c.db with
    | mk r db2 =>
      have hl2 : migrateLoop m (HeavyMigration.get_version c.db)
          (List.range' (HeavyMigration.get_version c.db)
            (m.version - HeavyMigration.get_version c.db)) c.db = (r, db2) := hl
      rw [hl2]
      cases r with
      | error e => rfl
      | ok u =>
        simp only [HeavyMigration.get_id]
        by_cases hc : m.id ≠ 0 ∧ db2.applicationId ≠ m.id
        · simp [hc]
        · simp [hc]
  · intro fv rest db hmig
    simp [migrateLoop, hmig]
  · intro fv rest db mig hmig
    simp only [migrateLoop, hmig, foreign_key_check, HeavyMigration.set_version]
    by_cases hfk : (mig { db with userVersion := fv + 1 }).fkViolations = 0
    · simp [hfk]
    · simp [hfk, DBErr.str, DBErr.displayName, DBErr.msg, String.append_assoc]
  · intro fv
    exact ⟨"integrity error: FOREIGN KEY constraint failed", rfl⟩

/-- Witness for C1: stored version 1, target 3, both step migrations present
and clean, so `migrate` commits the stepped database. -/
theorem migrate_steps_witness :
    exMig3.migrate (exConn (exDB 1 0 5 0)) =
      some (Except.ok (),
        { exConn (exDB 1 0 5 0) with db := { exDB 1 0 5 0 with userVersion := 3, data := 2 } }) :=
  (migrate_steps exMig3 (exConn (exDB 1 0 5 0)) rfl (Or.inl rfl)
    (by decide) (by decide)).1

/-- C4: `ddl_transaction` runs the body after `BEGIN;` (the body sees the
snapshot of the initial database and `isolation_level = None`); a body that
completes is followed by `COMMIT;`, a body that raises by `ROLLBACK;` and the
re-raised exception, and `isolation_level` is restored on both paths.
Consequently a `migrate` that raises leaves the database state unchanged. -/
theorem ddl_transaction_spec {E : Type} (body : Conn → Except E Unit × Conn) (c : Conn) :
    (ddl_transaction body c =
      match body { c with isolationLevel := none, snapshot := some c.db } with
      | (Except.ok _, c2) =>
        (Except.ok (), { c2 with snapshot := none, isolationLevel := c.isolationLevel })
      | (Except.error e, c2) =>
        (Except.error e,
          { c2 with
            db := c2.snapshot.getD c2.db
            snapshot := none
            isolationLevel := c.isolationLevel }))
    ∧ (∀ (m : HeavyMigration) (e : DBErr) (c2 : Conn), c.snapshot = none →
        m.migrate c = some (Except.error e, c2) → c2.db = c.db) := by
  constructor
  · show _ =
      match body { c with isolationLevel := none, snapshot := some c.db } with
      | (Except.ok _, c2) =>
        (Except.ok (), { c2 with snapshot := none, isolationLevel := c.isolationLevel })
      | (Except.error e, c2) =>
        (Except.error e,
          { c2 with
            db := c2.snapshot.getD c2.db
            snapshot := none
            isolationLevel := c.isolationLevel })
    rfl
  · intro m e c2 hsnap hmig
    rw [migrate_eq m c hsnap] at hmig
    cases hb : m.migrateBody c.db with
    | mk r db2 =>
      rw [hb] at hmig
      cases r with
      | ok u => simp at hmig
      | error e2 =>
        simp only [Option.some.injEq, Prod.mk.injEq, Except.error.injEq] at hmig
        rw [← hmig.2]

/-- Witness for C4: a failing `migrate` (stored version 2, target 1) returns
the connection it started from, database state included. -/
theorem ddl_transaction_spec_witness :
    (exConn (exDB 2 0 5 0)).snapshot = none
    ∧ exMig1.migrate (exConn (exDB 2 0 5 0)) =
        some (Except.error (DBErr.schemaVersionError "invalid version: 2"),
          exConn (exDB 2 0 5 0))
    ∧ (exConn (exDB 2 0 5 0)).db = (exConn (exDB 2 0 5 0)).db :=
  ⟨rfl, rfl,
    (ddl_transaction_spec (fun c => ((Except.ok () : Except DBErr Unit), c))
        (exConn (exDB 2 0 5 0))).2
      exMig1 (DBErr.schemaVersionError "invalid version: 2") (exConn (exDB 2 0 5 0))
      rfl rfl⟩

/-- C9: `foreign_keys_off` asserts it is entered outside a transaction,
reads the current `foreign_keys` value, runs the body with the pragma OFF,
and restores the previously read value (whatever it was, not unconditionally
ON) whether the body completes or raises. -/
theorem foreign_keys_off_spec {E : Type} (body : Conn → Except E Unit × Conn) (c : Conn) :
    (∀ s : DBState, c.snapshot = some s → foreign_keys_off body c = none)
    ∧ (∀ c2 : Conn, c.snapshot = none →
        body { c with foreignKeys := false } = (Except.ok (), c2) →
        foreign_keys_off body c =
          some (Except.ok (), { c2 with foreignKeys := c.foreignKeys }))
    ∧ (∀ (e : E) (c2 : Conn), c.snapshot = none →
        body { c with foreignKeys := false } = (Except.error e, c2) →
        foreign_keys_off body c =
          some (Except.error e, { c2 with foreignKeys := c.foreignKeys })) := by
  refine ⟨?_, ?_, ?_⟩
  · intro s hs
    unfold foreign_keys_off
    rw [hs]
    rfl
  · intro c2 hs hb
    rw [hs] at hb
    unfold foreign_keys_off
    rw [hs]
    simp only [Option.isSome_none, Bool.false_eq_true, if_false]
    rw [hb]
  · intro e c2 hs hb
    rw [hs] at hb
    unfold foreign_keys_off
    rw [hs]
    simp only [Option.isSome_none, Bool.false_eq_true, if_false]
    rw [hb]

/-- Witness for C9: a connection whose `foreign_keys` was OFF going in gets
OFF (not ON) restored after the block. -/
theorem foreign_keys_off_spec_witness :
    foreign_keys_off bodyEx (exConnOff (exDB 1 0 0 0)) =
      some (Except.ok (),
        { exConnOff (exDB 1 0 0 0) with db := { exDB 1 0 0 0 with data := 42 } }) :=
  (foreign_keys_off_spec bodyEx (exConnOff (exDB 1 0 0 0))).2.1
    { exConnOff (exDB 1 0 0 0) with db := { exDB 1 0 0 0 with data := 42 } }
    rfl rfl

/-- Counterexample to C5 as stated: the "cannot operate on a closed
database" `ProgrammingError` is re-raised as
`exc_type("operation on closed database")` with `from None`, i.e. with NO
cause, not "preserving the original as cause". -/
theorem wrap_exceptions_closed_cause_counterexample :
    wrap_exceptions "unexpected error"
        (some (SqliteExc.programmingError "Cannot operate on a closed database."))
      = WrapOutcome.wrapped "operation on closed database" none
    ∧ wrap_exceptions "unexpected error"
        (some (SqliteExc.programmingError "Cannot operate on a closed database."))
      ≠ WrapOutcome.wrapped "operation on closed database"
          (some (SqliteExc.programmingError "Cannot operate on a closed database.")) := by
  constructor
  · decide
  · decide

/-- C5 (amended): `wrap_exceptions(exc_type, message)` wraps an
`OperationalError` as `exc_type(message)` with the original as cause;
re-raises a "cannot operate on a closed database" `ProgrammingError` as
`exc_type("operation on closed database")` with the cause suppressed
(`from None`) and re-raises every other `ProgrammingError` unchanged; wraps
an instance of exactly `DatabaseError` containing "file is not a database"
as `exc_type(message)` with the original as cause and re-raises every other
`DatabaseError` unchanged; and lets a completed body through. -/
theorem wrap_exceptions_spec (message s : String) :
    wrap_exceptions message (some (SqliteExc.operationalError s))
      = WrapOutcome.wrapped message (some (SqliteExc.operationalError s))
    ∧ (strContains (lowerStr s) "cannot operate on a closed database" = true →
      wrap_exceptions message (some (SqliteExc.programmingError s))
        = WrapOutcome.wrapped "operation on closed database" none)
    ∧ (strContains (lowerStr s) "cannot operate on a closed database" = false →
      wrap_exceptions message (some (SqliteExc.programmingError s))
        = WrapOutcome.reraised (SqliteExc.programmingError s))
    ∧ (strContains (lowerStr s) "file is not a database" = true →
      wrap_exceptions message (some (SqliteExc.databaseError s))
        = WrapOutcome.wrapped message (some (SqliteExc.databaseError s)))
    ∧ (strContains (lowerStr s) "file is not a database" = false →
      wrap_exceptions message (some (SqliteExc.databaseError s))
        = WrapOutcome.reraised (SqliteExc.databaseError s))
    ∧ wrap_exceptions message (some (SqliteExc.databaseErrorSub s))
      = WrapOutcome.reraised (SqliteExc.databaseErrorSub s)
    ∧ wrap_exceptions message none = WrapOutcome.ok := by
  refine ⟨rfl, ?_, ?_, ?_, ?_, rfl, rfl⟩ <;>
    intro h <;> simp [wrap_exceptions, h]

/-- Witness for C5: concrete closed-database and locked-database messages. -/
theorem wrap_exceptions_spec_witness :
    wrap_exceptions "unexpected error"
        (some (SqliteExc.programmingError "Cannot operate on a closed database."))
      = WrapOutcome.wrapped "operation on closed database" none
    ∧ wrap_exceptions "unexpected error"
        (some (SqliteExc.programmingError "You did not supply a value for binding 1."))
      = WrapOutcome.reraised
          (SqliteExc.programmingError "You did not supply a value for binding 1.") :=
  ⟨(wrap_exceptions_spec "unexpected error"
      "Cannot operate on a closed database.").2.1 (by decide),
    (wrap_exceptions_spec "unexpected error"
      "You did not supply a value for binding 1.").2.2.1 (by decide)⟩

/-- Counterexample to C7 as stated: `rowcount_exactly_one` on a rowcount of
2 fails the `assert` ("shouldn't have more than 1 row") instead of raising
the supplied not-found exception, so "raises the supplied not-found
exception for every rowcount != 1" is false. -/
theorem rowcount_exactly_one_counterexample :
    rowcount_exactly_one 2 = RowcountOutcome.assertFailed "shouldn't have more than 1 row"
    ∧ rowcount_exactly_one 2 ≠ RowcountOutcome.raisedMakeExc := by
  constructor
  · decide
  · decide

/-- C7 (amended): `rowcount_exactly_one` raises the supplied not-found
exception exactly when the rowcount is 0 and fails its assert for any other
rowcount different from 1; the flag operations
`mark_as_read_unread`/`mark_as_important_unimportant` key their UPDATE on
the entry primary key, so on a table with unique keys they update exactly
the one matching row and raise `EntryNotFoundError` (rowcount 0) exactly
when the entry is absent. -/
theorem mark_rowcount_spec (rows : FlagTable) (f e : String) (flag : Bool)
    (hnodup : (rows.map Prod.fst).Nodup) :
    ((f, e) ∈ rows.map Prod.fst →
      updateRowcount (f, e) rows = 1
      ∧ mark_as_read_unread rows f e flag = MarkResult.ok (updateFlag (f, e) flag rows)
      ∧ mark_as_important_unimportant rows f e flag
        = MarkResult.ok (updateFlag (f, e) flag rows)
      ∧ ((f, e), flag) ∈ updateFlag (f, e) flag rows)
    ∧ ((f, e) ∉ rows.map Prod.fst →
      updateRowcount (f, e) rows = 0
      ∧ mark_as_read_unread rows f e flag = MarkResult.entryNotFoundError
      ∧ mark_as_important_unimportant rows f e flag = MarkResult.entryNotFoundError)
    ∧ (∀ p ∈ rows, p.1 ≠ (f, e) → p ∈ updateFlag (f, e) flag rows)
    ∧ (∀ rc : Int, rowcount_exactly_one rc = RowcountOutcome.raisedMakeExc ↔ rc = 0)
    ∧ (∀ rc : Int, rc ≠ 0 → rc ≠ 1 →
      rowcount_exactly_one rc
        = RowcountOutcome.assertFailed "shouldn't have more than 1 row") := by
  have hcount1 : (f, e) ∈ rows.map Prod.fst → updateRowcount (f, e) rows = 1 := by
    intro hmem
    unfold updateRowcount
    induction rows with
    | nil => simp at hmem
    | cons r rest ih =>
      simp only [List.map_cons, List.nodup_cons, List.mem_map] at hnodup
      by_cases hr : r.1 = (f, e)
      · have hnotin : (rest.filter (fun q => decide (q.1 = (f, e)))) = [] := by
          rw [List.filter_eq_nil_iff]
          intro q hq
          simp only [decide_eq_true_eq]
          intro hq1
          exact hnodup.1 ⟨q, hq, by rw [hq1, hr]⟩
        simp [List.filter_cons, hr, hnotin]
      · have hmem2 : (f, e) ∈ rest.map Prod.fst := by
          simp only [List.map_cons, List.mem_cons] at hmem
          rcases hmem with h | h
          · exact absurd h.symm (by simpa using hr)
          · exact h
        have := ih hnodup.2 hmem2
        simpa [List.filter_cons, hr] using this
  have hcount0 : (f, e) ∉ rows.map Prod.fst → updateRowcount (f, e) rows = 0 := by
    intro hmem
    unfold updateRowcount
    rw [List.length_eq_zero, List.filter_eq_nil_iff]
    intro q hq
    simp only [decide_eq_true_eq]
    intro hq1
    exact hmem (List.mem_map.mpr ⟨q, hq, hq1⟩)
  refine ⟨?_, ?_, ?_, ?_, ?_⟩
  · intro hmem
    have h1 := hcount1 hmem
    refine ⟨h1, ?_, ?_, ?_⟩
    · unfold mark_as_read_unread
      rw [h1]
      rfl
    · unfold mark_as_important_unimportant mark_as_read_unread
      rw [h1]
      rfl
    · obtain ⟨q, hq, hq1⟩ := List.mem_map.mp hmem
      have : (if q.1 = (f, e) then ((q.1, flag) : (String × String) × Bool) else q)
          ∈ updateFlag (f, e) flag rows :=
        List.mem_map.mpr ⟨q, hq, rfl⟩
      rw [if_pos hq1, hq1] at this
      exact this
  · intro hmem
    have h0 := hcount0 hmem
    refine ⟨h0, ?_, ?_⟩
    · unfold mark_as_read_unread
      rw [h0]
      rfl
    · unfold mark_as_important_unimportant mark_as_read_unread
      rw [h0]
      rfl
  · intro p hp hne
    have : (if p.1 = (f, e) then ((p.1, flag) : (String × String) × Bool) else p)
        ∈ updateFlag (f, e) flag rows :=
      List.mem_map.mpr ⟨p, hp, rfl⟩
    rwa [if_neg hne] at this
  · intro rc
    unfold rowcount_exactly_one
    constructor
    · intro h
      by_cases h0 : rc = 0
      · exact h0
      · rw [if_neg h0] at h
        by_cases h1 : rc = 1 <;> simp [h1] at h
    · intro h0
      rw [if_pos h0]
  · intro rc h0 h1
    unfold rowcount_exactly_one
    rw [if_neg h0, if_neg h1]

/-- Witness for C7: a two-entry table; marking a present entry flips exactly
its flag, marking an absent one raises `EntryNotFoundError`. -/
theorem mark_rowcount_spec_witness :
    mark_as_read_unread [(("f", "one"), false), (("f", "two"), false)] "f" "one" true
      = MarkResult.ok [(("f", "one"), true), (("f", "two"), false)]
    ∧ mark_as_read_unread [(("f", "one"), false), (("f", "two"), false)] "f" "three" true
      = MarkResult.entryNotFoundError :=
  ⟨by
    have h := ((mark_rowcount_spec
        [(("f", "one"), false), (("f", "two"), false)] "f" "one" true
        (by decide)).1 (by decide)).2.1
    exact h.trans (by decide),
   ((mark_rowcount_spec
        [(("f", "one"), false), (("f", "two"), false)] "f" "three" true
        (by decide)).2.1 (by decide)).2.1⟩

/-- One factory step keeps the path, keeps `nextConn` positive, and never
hands connection 0 (`self._main`) to a thread other than the creator. -/
theorem factory_step_inv (path : String) (creator : Nat) (s : FactoryState) (st : FStep)
    (h1 : s.path = path) (h2 : 1 ≤ s.nextConn)
    (h3 : ∀ u, u ≠ creator → s.locals u ≠ some 0) :
    (s.step st).path = path ∧ 1 ≤ (s.step st).nextConn
    ∧ ∀ u, u ≠ creator → (s.step st).locals u ≠ some 0 := by
  cases st with
  | enter v =>
    simp only [FactoryState.step]
    cases hv : s.locals v with
    | some d => exact ⟨h1, h2, h3⟩
    | none =>
      refine ⟨h1, ?_, ?_⟩
      · show 1 ≤ s.nextConn + 1
        omega
      · intro u hu
        show ¬(if u = v then some s.nextConn else s.locals u) = some 0
        by_cases huv : u = v
        · rw [if_pos huv]
          intro hcon
          have : s.nextConn = 0 := Option.some.inj hcon
          omega
        · rw [if_neg huv]
          exact h3 u hu
  | exitScope v => exact ⟨h1, h2, h3⟩
  | closeCall v => exact ⟨h1, h2, h3⟩

/-- The factory invariant holds along any run of steps. -/
theorem factory_foldl_inv (path : String) (creator : Nat) :
    ∀ (steps : List FStep) (s : FactoryState), s.path = path → 1 ≤ s.nextConn →
      (∀ u, u ≠ creator → s.locals u ≠ some 0) →
      (steps.foldl FactoryState.step s).path = path
      ∧ 1 ≤ (steps.foldl FactoryState.step s).nextConn
      ∧ ∀ u, u ≠ creator → (steps.foldl FactoryState.step s).locals u ≠ some 0
  | [], s, h1, h2, h3 => ⟨h1, h2, h3⟩
  | st :: rest, s, h1, h2, h3 => by
    obtain ⟨g1, g2, g3⟩ := factory_step_inv path creator s st h1 h2 h3
    simpa using factory_foldl_inv path creator rest (s.step st) g1 g2 g3

/-- A thread whose `ContextVar` slot is unset and that never enters the
context manager keeps an unset slot. -/
theorem factory_foldl_locals_none (t : Nat) :
    ∀ (steps : List FStep) (s : FactoryState), s.locals t = none →
      (∀ st ∈ steps, st ≠ FStep.enter t) →
      (steps.foldl FactoryState.step s).locals t = none
  | [], _, h, _ => h
  | st :: rest, s, h, hsteps => by
    have hstep : (s.step st).locals t = none := by
      cases st with
      | enter v =>
        have hvt : v ≠ t := by
          intro hv
          exact (hsteps (FStep.enter v) (List.mem_cons_self _ _)) (by rw [hv])
        simp only [FactoryState.step]
        cases hv : s.locals v with
        | some d => exact h
        | none =>
          show (if t = v then some s.nextConn else s.locals t) = none
          rw [if_neg (fun hh => hvt hh.symm)]
          exact h
      | exitScope v => exact h
      | closeCall v => exact h
    simpa using factory_foldl_locals_none t rest (s.step st) hstep
      (fun st2 hst2 => hsteps st2 (List.mem_cons_of_mem _ hst2))

/-- C6: after any sequence of scope entries/exits/closes following
construction on thread `creator`, a different thread `t` that never entered
the context manager gets `UsageError` from `get()`; `close()` from `t`
always raises `UsageError`; and if the database path is private
(`""`/`":memory:"`) `get()` from `t` raises `UsageError` no matter what. -/
theorem factory_thread_spec (path : String) (creator : Nat) (steps : List FStep)
    (t : Nat) (ht : t ≠ creator) :
    ((∀ st ∈ steps, st ≠ FStep.enter t) →
      LocalConnectionFactory.get (FactoryState.run path creator steps) t
        = Except.error "must be used as a context manager when using from threads other than the creating thread")
    ∧ LocalConnectionFactory.close (FactoryState.run path creator steps) t
      = Except.error "cannot close() from threads other than the creating thread, use as a context manager"
    ∧ (LocalConnectionFactory.is_private path = true →
      ∃ msg, LocalConnectionFactory.get (FactoryState.run path creator steps) t
        = Except.error msg) := by
  have hinit1 : (FactoryState.init path creator).path = path := rfl
  have hinit2 : 1 ≤ (FactoryState.init path creator).nextConn := le_refl 1
  have hinit3 : ∀ u, u ≠ creator → (FactoryState.init path creator).locals u ≠ some 0 := by
    intro u hu
    simp [FactoryState.init, hu]
  have hrun :=
    factory_foldl_inv path creator steps (FactoryState.init path creator) hinit1 hinit2 hinit3
  have g1 : (FactoryState.run path creator steps).path = path := hrun.1
  have g3 : ∀ u, u ≠ creator →
      (FactoryState.run path creator steps).locals u ≠ some 0 := hrun.2.2
  refine ⟨?_, ?_, ?_⟩
  · intro hsteps
    have hnone : (FactoryState.run path creator steps).locals t = none :=
      factory_foldl_locals_none t steps (FactoryState.init path creator)
        (by simp [FactoryState.init, ht]) hsteps
    unfold LocalConnectionFactory.get
    rw [hnone]
  · unfold LocalConnectionFactory.close
    rw [if_pos (g3 t ht)]
  · intro hpriv
    unfold LocalConnectionFactory.get
    cases hl : (FactoryState.run path creator steps).locals t with
    | none => exact ⟨_, rfl⟩
    | some d =>
      have hd : d ≠ 0 := by
        intro hd0
        exact g3 t ht (by rw [hl, hd0])
      refine ⟨"cannot use a private database from threads other than the creating thread", ?_⟩
      simp [g1, hpriv, hd]

/-- Witness for C6: an in-memory factory created on thread 0; thread 1
enters a scope, yet `get` and `close` from threads 1 and 2 all raise. -/
theorem factory_thread_spec_witness :
    LocalConnectionFactory.close (FactoryState.run ":memory:" 0 [FStep.enter 1]) 1
      = Except.error "cannot close() from threads other than the creating thread, use as a context manager"
    ∧ LocalConnectionFactory.get (FactoryState.run ":memory:" 0 [FStep.enter 1]) 2
      = Except.error "must be used as a context manager when using from threads other than the creating thread"
    ∧ ∃ msg, LocalConnectionFactory.get (FactoryState.run ":memory:" 0 [FStep.enter 1]) 1
      = Except.error msg :=
  ⟨(factory_thread_spec ":memory:" 0 [FStep.enter 1] 1 (by decide)).2.1,
   (factory_thread_spec ":memory:" 0 [FStep.enter 1] 2 (by decide)).1 (by decide),
   (factory_thread_spec ":memory:" 0 [FStep.enter 1] 1 (by decide)).2.2 rfl⟩

/-- C8: `join_paginated_iter` makes a single unchunked call when
`chunk_size` is 0 and yields its items in order; with a positive
`chunk_size` it stops on an empty page, yields a short page's items and
stops, and on a full page yields the items and continues from the cursor
paired with the page's last item. -/
theorem join_paginated_iter_spec {α κ : Type} (get_things : Nat → Option κ → List (α × κ))
    (chunk_size fuel : Nat) (last : Option κ) :
    (chunk_size = 0 →
      join_paginated_iter get_things chunk_size (fuel + 1) last
        = some ((get_things 0 last).map Prod.fst))
    ∧ (0 < chunk_size → get_things chunk_size last = [] →
      join_paginated_iter get_things chunk_size (fuel + 1) last = some [])
    ∧ (0 < chunk_size → get_things chunk_size last ≠ [] →
      (get_things chunk_size last).length < chunk_size →
      join_paginated_iter get_things chunk_size (fuel + 1) last
        = some ((get_things chunk_size last).map Prod.fst))
    ∧ (∀ t ts, get_things chunk_size last = t :: ts → 0 < chunk_size →
      chunk_size ≤ (t :: ts).length →
      join_paginated_iter get_things chunk_size (fuel + 1) last
        = Option.map (fun rest => (t :: ts).map Prod.fst ++ rest)
            (join_paginated_iter get_things chunk_size fuel
              (some ((t :: ts).getLast (List.cons_ne_nil t ts)).2))) := by
  refine ⟨?_, ?_, ?_, ?_⟩
  · intro h0
    subst h0
    simp [join_paginated_iter]
  · intro hpos hempty
    simp [join_paginated_iter, hempty, Nat.pos_iff_ne_zero.mp hpos]
  · intro hpos h hlt
    cases hg : get_things chunk_size last with
    | nil => exact absurd hg h
    | cons t ts =>
      rw [hg] at hlt
      simp only [join_paginated_iter, hg]
      rw [if_neg (Nat.pos_iff_ne_zero.mp hpos), if_pos hlt]
  · intro t ts hg hpos hge
    have hnlt : ¬(t :: ts).length < chunk_size := by omega
    simp only [join_paginated_iter, hg]
    rw [if_neg (Nat.pos_iff_ne_zero.mp hpos), if_neg hnlt]
    cases hr : join_paginated_iter get_things chunk_size fuel
        (some ((t :: ts).getLast (List.cons_ne_nil t ts)).2) with
    | none => rfl
    | some rest => rfl

/-- Witness for C8: two pages, `[10, 11]` then the short `[12]`, flatten to
`[10, 11, 12]`. -/
theorem join_paginated_iter_spec_witness :
    join_paginated_iter exGet 2 3 none = some [10, 11, 12] := by
  have h1 : join_paginated_iter exGet 2 3 none
      = Option.map (fun rest => [10, 11] ++ rest) (join_paginated_iter exGet 2 2 (some 1)) :=
    (join_paginated_iter_spec exGet 2 2 none).2.2.2 (10, 0) [(11, 1)] rfl
      (by decide) (by decide)
  have h2 : join_paginated_iter exGet 2 2 (some 1) = some [12] :=
    (join_paginated_iter_spec exGet 2 1 (some 1)).2.2.1 (by decide) (by decide) (by decide)
  rw [h1, h2]
  rfl

/-- Grouping an empty list gives no chunks. -/
theorem chunks_nil {α : Type} (n : Nat) : chunks n ([] : List α) = [] := by
  simp [chunks]

/-- Unfolding `chunks` on a cons with a positive size. -/
theorem chunks_cons {α : Type} (n : Nat) (x : α) (xs : List α) :
    chunks (n + 1) (x :: xs) = (x :: xs.take n) :: chunks (n + 1) (xs.drop n) := by
  simp [chunks]

/-- The `chunks` of a non-empty list are non-empty (with a positive size). -/
theorem chunks_eq_nil_iff {α : Type} (n : Nat) (xs : List α) :
    chunks (n + 1) xs = [] ↔ xs = [] := by
  cases xs with
  | nil => simp [chunks_nil]
  | cons x xs => simp [chunks_cons]

/-- Concatenating the chunks gives back the list. -/
theorem chunks_join {α : Type} (n : Nat) :
    ∀ (len : Nat) (xs : List α), xs.length ≤ len → (chunks (n + 1) xs).flatten = xs
  | _, [], _ => by simp [chunks_nil]
  | 0, x :: xs, h => by simp at h
  | len + 1, x :: xs, h => by
    rw [chunks_cons]
    have hlen : (xs.drop n).length ≤ len := by
      simp only [List.length_cons] at h
      simp only [List.length_drop]
      omega
    simp only [List.flatten_cons, chunks_join n len (xs.drop n) hlen, List.cons_append,
      List.take_append_drop]

/-- No chunk is empty. -/
theorem chunks_ne_nil {α : Type} (n : Nat) :
    ∀ (len : Nat) (xs : List α), xs.length ≤ len → ∀ c ∈ chunks (n + 1) xs, c ≠ []
  | _, [], _ => by simp [chunks_nil]
  | 0, x :: xs, h => by simp at h
  | len + 1, x :: xs, h => by
    rw [chunks_cons]
    have hlen : (xs.drop n).length ≤ len := by
      simp only [List.length_cons] at h
      simp only [List.length_drop]
      omega
    intro c hc
    rcases List.mem_cons.mp hc with hc0 | hcr
    · rw [hc0]
      exact List.cons_ne_nil x (xs.take n)
    · exact chunks_ne_nil n len (xs.drop n) hlen c hcr

/-- Every chunk except the last has exactly the requested size. -/
theorem chunks_dropLast {α : Type} (n : Nat) :
    ∀ (len : Nat) (xs : List α), xs.length ≤ len →
      ∀ c ∈ (chunks (n + 1) xs).dropLast, c.length = n + 1
  | _, [], _ => by simp [chunks_nil]
  | 0, x :: xs, h => by simp at h
  | len + 1, x :: xs, h => by
    rw [chunks_cons]
    have hlen : (xs.drop n).length ≤ len := by
      simp only [List.length_cons] at h
      simp only [List.length_drop]
      omega
    cases hrest : chunks (n + 1) (xs.drop n) with
    | nil => simp
    | cons r rs =>
      rw [List.dropLast_cons_of_ne_nil (List.cons_ne_nil r rs)]
      intro c hc
      rcases List.mem_cons.mp hc with hc0 | hcr
      · have hdropne : xs.drop n ≠ [] := by
          intro hd
          rw [hd, chunks_nil] at hrest
          exact List.cons_ne_nil r rs hrest.symm
        have hxslen : n ≤ xs.length := by
          by_contra hcon
          exact hdropne (List.drop_eq_nil_of_le (by omega))
        rw [hc0]
        simp only [List.length_cons, List.length_take]
        omega
      · exact chunks_dropLast n len (xs.drop n) hlen c (by rw [hrest]; exact hcr)

/-- C10: for `n ≥ 1`, the chunks of `xs` concatenate back to `xs`, no chunk
is empty, and every chunk except possibly the last has exactly `n`
elements. -/
theorem chunks_spec {α : Type} (n : Nat) (xs : List α) (h : 1 ≤ n) :
    (chunks n xs).flatten = xs
    ∧ (∀ c ∈ chunks n xs, c ≠ [])
    ∧ (∀ c ∈ (chunks n xs).dropLast, c.length = n) := by
  obtain ⟨n2, rfl⟩ : ∃ n2, n = n2 + 1 := ⟨n - 1, by omega⟩
  exact ⟨chunks_join n2 xs.length xs le_rfl,
    chunks_ne_nil n2 xs.length xs le_rfl,
    chunks_dropLast n2 xs.length xs le_rfl⟩

/-- Witness for C10: `chunks 2 [1,2,3,4,5]` = `[[1,2],[3,4],[5]]` behaves as
claimed. -/
theorem chunks_spec_witness :
    (chunks 2 [1, 2, 3, 4, 5]).flatten = [1, 2, 3, 4, 5]
    ∧ (∀ c ∈ chunks 2 [1, 2, 3, 4, 5], c ≠ [])
    ∧ (∀ c ∈ (chunks 2 [1, 2, 3, 4, 5]).dropLast, c.length = 2) :=
  chunks_spec 2 [1, 2, 3, 4, 5] (by decide)

end ReaderVerify
